import Mathlib

/-
Verification of the VORTEX per-identity threat-intelligence engine
(baselines, decayed risk trajectories, attack-chain correlation) against
its specification.  The analytical backend modules (`src/user_profile.py`,
`src/risk_trajectory.py`, `src/event_chains.py`, `src/api/main.py`) are not
part of the source tree available here — only their documentation and the
frontend that calls them — so those components are modelled from the spec,
as marked on each definition.  The frontend components (Dashboard
statistics, UserProfile chart normalisation) are embedded directly from
the JSX source.
-/

namespace VORTEX

/-! ## Temporal decay (TrajectoryEngine)

Modelled from the spec: `src/risk_trajectory.py` is missing from the tree;
the spec gives `weight(daysAgo) = 0.5 ^ (daysAgo / halfLife)` with a
default half-life of 7 days. -/

noncomputable def weight (daysAgo halfLife : ℝ) : ℝ :=
  (1 / 2 : ℝ) ^ (daysAgo / halfLife)

def halfLifeDefault : ℝ := 7

/-! ## Tag taxonomy and events (EventTagger / ChainDetector)

Modelled from the spec: `src/event_chains.py` is missing from the tree;
the closed tag taxonomy and the chain templates below follow the spec and
the repository documentation
(`docs/PHASE2A_SESSION1_BASELINES.md`, Event Chain Detection section). -/

inductive Tag where
  | offHours
  | weekend
  | massFileAccess
  | massFileEnum
  | sensitiveFileAccess
  | largeUpload
  | minimalUpload
  | repeatedUploads
  | externalConnection
  | usbUsage
  | privilegeEscalation
  | privilegeUse
  | systemAccess
  | systemModification
  | highRiskAction
  | unusualLogin
deriving DecidableEq, Repr

structure SEvent where
  eid : Nat
  time : ℚ
  score : ℚ
  filesAccessed : ℚ
  uploadMB : ℚ
  tags : List Tag
deriving DecidableEq, Repr

inductive Category where
  | exfiltration
  | insiderThreat
  | reconnaissance
  | privilegeAbuse
deriving DecidableEq, Repr

inductive Severity where
  | None
  | Low
  | Medium
  | High
  | Critical
deriving DecidableEq, Repr

def Severity.rank : Severity → Nat
  | .None => 0
  | .Low => 1
  | .Medium => 2
  | .High => 3
  | .Critical => 4

structure ChainPattern where
  category : Category
  sequence : List (List Tag)
  window : ℚ
  minEvents : Nat
  amplification : ℚ
  severity : Severity
deriving DecidableEq, Repr

/-- Modelled from the spec: the Data-Exfiltration template
off-hours → mass-file-access → large-upload, 8-hour window, minimum 3
events, ×2.0 amplification, Critical severity. -/
def dataExfilPattern : ChainPattern :=
  { category := .exfiltration
    sequence := [[.offHours], [.massFileAccess], [.largeUpload]]
    window := 8
    minEvents := 3
    amplification := 2
    severity := .Critical }

/-- Permissive step matching: an event matches a step when its tag set
intersects (not necessarily equals) the step's required tag set. -/
def tagHit (evTags req : List Tag) : Bool :=
  req.any (fun t => evTags.contains t)

/-- Modelled from the spec: forward scan of the chain matcher.  Walks the
(time-ordered) events; an event within the deadline that matches the
current step is taken and the step pointer advances, a non-matching event
within the deadline is skipped, and the first event past the deadline
aborts the candidate. -/
def matchSteps : List SEvent → List (List Tag) → ℚ → Option (List SEvent)
  | _, [], _ => some []
  | [], _ :: _, _ => none
  | e :: rest, req :: reqs, deadline =>
    if e.time ≤ deadline then
      if tagHit e.tags req then
        (matchSteps rest reqs deadline).map (fun l => e :: l)
      else
        matchSteps rest (req :: reqs) deadline
    else
      none

def sumScores (l : List SEvent) : ℚ :=
  (l.map SEvent.score).sum

structure ChainMatch where
  pattern : ChainPattern
  events : List SEvent
  individualSum : ℚ
  chainRisk : ℚ
  duration : ℚ
deriving DecidableEq, Repr

/-- Modelled from the spec: a successful candidate is materialised with
`chainRisk = Σ(individual scores) × amplification` and duration from first
to last matched event. -/
def mkMatch (p : ChainPattern) (evs : List SEvent) : ChainMatch :=
  { pattern := p
    events := evs
    individualSum := sumScores evs
    chainRisk := sumScores evs * p.amplification
    duration := ((evs.getLast?).map SEvent.time).getD 0 -
      ((evs.head?).map SEvent.time).getD 0 }

/-- Modelled from the spec: opening a candidate at anchor event `e`.  The
anchor must intersect the template's first required tag set; the forward
scan runs with deadline anchor-time + window, and the candidate succeeds
when all steps match and the matched-event count reaches the template
minimum. -/
def tryAnchor (p : ChainPattern) (e : SEvent) (rest : List SEvent) :
    Option ChainMatch :=
  match p.sequence with
  | [] => none
  | req₀ :: _ =>
    if tagHit e.tags req₀ then
      match matchSteps (e :: rest) p.sequence (e.time + p.window) with
      | some evs =>
        if p.minEvents ≤ evs.length then some (mkMatch p evs) else none
      | none => none
    else
      none

/-- Modelled from the spec: per-identity chain detection, processing
events in timestamp order and opening a candidate at every possible
anchor. -/
def detectChains (p : ChainPattern) : List SEvent → List ChainMatch
  | [] => []
  | e :: rest =>
    match tryAnchor p e rest with
    | some m => m :: detectChains p rest
    | none => detectChains p rest

/-- The positive-control scenario from the spec: three events tagged
off-hours, mass-file-access, large-upload at hours 2, 3, 4 (within an
8-hour window), with scores −0.3, −0.5, −0.8. -/
def demoEvents : List SEvent :=
  [ { eid := 1, time := 2, score := -3/10, filesAccessed := 5,
      uploadMB := 1, tags := [.offHours] }
  , { eid := 2, time := 3, score := -1/2, filesAccessed := 75,
      uploadMB := 2, tags := [.massFileAccess] }
  , { eid := 3, time := 4, score := -4/5, filesAccessed := 10,
      uploadMB := 250, tags := [.largeUpload] } ]

/-- The negative-control scenario from the spec: the same three tagged
events spread across 30 hours, exceeding the 8-hour window. -/
def spreadEvents : List SEvent :=
  [ { eid := 1, time := 0, score := -3/10, filesAccessed := 5,
      uploadMB := 1, tags := [.offHours] }
  , { eid := 2, time := 14, score := -1/2, filesAccessed := 75,
      uploadMB := 2, tags := [.massFileAccess] }
  , { eid := 3, time := 30, score := -4/5, filesAccessed := 10,
      uploadMB := 250, tags := [.largeUpload] } ]

/-! ## Baselines and confidence (BaselineProfiler / ProfileManager)

Modelled from the spec: `src/user_profile.py` is missing from the tree.
The baseline uses only events with anomaly score above the normality
threshold −0.3, degrades to a low-confidence default with too little
history, and exposes a tiered confidence driven by the normal-event
count (the continuous value min(count/90, 1) reproduces the documented
56% confidence at 50 events). -/

def normalityThreshold : ℚ := -3/10

def isNormal (e : SEvent) : Bool :=
  decide (normalityThreshold < e.score)

/-- Modelled from the spec: the minimum normal-event count below which
the profiler falls back to the global default baseline; the exact
constant is not documented, only that it exists. -/
def minBaselineEvents : Nat := 5

inductive ConfTier where
  | low
  | medium
  | high
deriving DecidableEq, Repr

def confidence (n : Nat) : ℚ :=
  min ((n : ℚ) / 90) 1

def confTier (n : Nat) : ConfTier :=
  if n < 10 then .low else if n < 90 then .medium else .high

def listMean (l : List ℚ) : ℚ :=
  if l.length = 0 then 0 else l.sum / l.length

def listVar (l : List ℚ) : ℚ :=
  listMean (l.map (fun x => (x - listMean l) ^ 2))

structure UserBaseline where
  userId : Nat
  meanFiles : ℚ
  varFiles : ℚ
  meanUpload : ℚ
  varUpload : ℚ
  baselineScore : ℚ
  eventCount : Nat
  conf : ℚ
  tier : ConfTier
deriving DecidableEq, Repr

/-- Modelled from the spec: the global-default, low-confidence baseline
returned when too few normal events exist. -/
def defaultBaseline (uid : Nat) : UserBaseline :=
  { userId := uid
    meanFiles := 10
    varFiles := 25
    meanUpload := 5
    varUpload := 4
    baselineScore := -1/10
    eventCount := 0
    conf := confidence 0
    tier := .low }

/-- Modelled from the spec: `computeBaseline(identity, history)` filters
the history to normal events (score above the normality threshold),
returns the global default when fewer than the minimum remain, and
otherwise aggregates means/variances, count and confidence over the
normal events only. -/
def computeBaseline (uid : Nat) (history : List SEvent) : UserBaseline :=
  if (history.filter isNormal).length < minBaselineEvents then
    defaultBaseline uid
  else
    { userId := uid
      meanFiles := listMean ((history.filter isNormal).map SEvent.filesAccessed)
      varFiles := listVar ((history.filter isNormal).map SEvent.filesAccessed)
      meanUpload := listMean ((history.filter isNormal).map SEvent.uploadMB)
      varUpload := listVar ((history.filter isNormal).map SEvent.uploadMB)
      baselineScore := listMean ((history.filter isNormal).map SEvent.score)
      eventCount := (history.filter isNormal).length
      conf := confidence (history.filter isNormal).length
      tier := confTier (history.filter isNormal).length }

/-! ## Divergence (BaselineProfiler)

Modelled from the spec: per-feature z-scores with a zero-variance guard
(`0` when the standard deviation is `0`), combined into a non-negative
score classified Low/Medium/High, with each explanation carrying the
deviation multiple `value / mean` that the narrative string renders. -/

structure FeatureStats where
  mean : ℚ
  std : ℚ
deriving DecidableEq, Repr

def zScore (fs : FeatureStats) (value : ℚ) : ℚ :=
  if fs.std = 0 then 0 else |value - fs.mean| / fs.std

def divergenceScore (pairs : List (FeatureStats × ℚ)) : ℚ :=
  (pairs.map (fun p => zScore p.1 p.2)).sum

inductive DivLevel where
  | Low
  | Medium
  | High
deriving DecidableEq, Repr

/-- Modelled from the spec: fixed cut-points placing the documented
score 1.75 in the High band. -/
def classifyDivergence (score : ℚ) : DivLevel :=
  if score < 1/2 then .Low else if score < 3/2 then .Medium else .High

/-- Modelled from the spec: the multiple of the baseline mean that the
explanation string reports (for mean 9.4 and value 100 the docs report
a 10.6× deviation). -/
def deviationMultiple (fs : FeatureStats) (value : ℚ) : ℚ :=
  if fs.mean = 0 then 0 else value / fs.mean

/-! ## Escalation detection (TrajectoryEngine)

Modelled from the spec: recent 7-day mean versus previous 7-day mean,
`percentChange = (recent − previous) / |previous| × 100`, escalating when
that indicates a ≥30% worsening and the recent mean is below the
absolute elevated-risk threshold −0.3; a zero previous mean treats any
recent (negative-risk) activity as escalating.  Severity cut-points are
not documented exactly; the bands below reproduce the documented
examples (−160% → High, −433% → Critical). -/

def escalationPctThreshold : ℚ := 30

def escalationAbsThreshold : ℚ := -3/10

def percentChange (recentMean previousMean : ℚ) : ℚ :=
  if previousMean = 0 then 0
  else (recentMean - previousMean) / |previousMean| * 100

def isEscalating (recentMean previousMean : ℚ) : Bool :=
  if previousMean = 0 then decide (recentMean < 0)
  else
    decide (percentChange recentMean previousMean ≤ -escalationPctThreshold
      ∧ recentMean < escalationAbsThreshold)

def escalationSeverity (recentMean previousMean : ℚ) : Severity :=
  if isEscalating recentMean previousMean then
    let pc := percentChange recentMean previousMean
    if pc ≤ -300 then .Critical
    else if pc ≤ -100 then .High
    else if pc ≤ -60 then .Medium
    else .Low
  else .None

/-! ## Manager caches and read-only queries

Modelled from the spec: the manager layer (`src/api/main.py` DataStore and
the per-component managers) is missing from the tree; per the spec, every
query operation reads the current cached snapshot and never recomputes.
Queries are modelled as state transformers returning the answer and the
resulting state. -/

inductive TemporalKind where
  | lowAndSlow
  | frequencySpike
  | novelty
  | drift
deriving DecidableEq, Repr

structure TrajPoint where
  date : Nat
  events : Nat
  avg_risk : Option ℚ
  cumulative_risk : Option ℚ
  running_cumulative_risk : Option ℚ
  high_risk_events : Nat
deriving DecidableEq, Repr

structure Snapshot where
  baseline : UserBaseline
  trajectory : List TrajPoint
  escalating : Bool
  escalationSev : Severity
  chains : List ChainMatch
  patterns : List TemporalKind
deriving DecidableEq, Repr

structure ManagerState where
  cache : List (Nat × Snapshot)
deriving DecidableEq, Repr

def lookupSnap (s : ManagerState) (uid : Nat) : Option Snapshot :=
  (s.cache.find? (fun p => p.1 == uid)).map Prod.snd

def getBaselineQ (s : ManagerState) (uid : Nat) :
    Option UserBaseline × ManagerState :=
  ((lookupSnap s uid).map Snapshot.baseline, s)

def getTrajectoryQ (s : ManagerState) (uid : Nat) :
    Option (List TrajPoint) × ManagerState :=
  ((lookupSnap s uid).map Snapshot.trajectory, s)

def getEscalationQ (s : ManagerState) (uid : Nat) :
    Option (Bool × Severity) × ManagerState :=
  ((lookupSnap s uid).map (fun sn => (sn.escalating, sn.escalationSev)), s)

def getChainsQ (s : ManagerState) (uid : Nat) :
    Option (List ChainMatch) × ManagerState :=
  ((lookupSnap s uid).map Snapshot.chains, s)

def getPatternsQ (s : ManagerState) (uid : Nat) :
    Option (List TemporalKind) × ManagerState :=
  ((lookupSnap s uid).map Snapshot.patterns, s)

def getStatisticsQ (s : ManagerState) : (Nat × ℚ) × ManagerState :=
  ((s.cache.length,
    listMean (s.cache.map (fun p => p.2.baseline.baselineScore))), s)

/-! ## Dashboard statistics (frontend, `pages/Dashboard.jsx`)

Embedded from the source: `fetchDashboardData` computes
`escalatingUsers = userList.filter(u => u.baseline_risk_level === 'High'
|| u.baseline_risk_level === 'Critical').length`. -/

structure DashUser where
  user_id : Nat
  baseline_risk_level : String
  is_escalating : Bool
deriving DecidableEq, Repr

def escalatingUsersCount (users : List DashUser) : Nat :=
  (users.filter (fun u =>
    u.baseline_risk_level == "High" ||
      u.baseline_risk_level == "Critical")).length

/-! ## Trajectory chart normalisation (frontend, `pages/UserProfile.jsx`)

Embedded from the source: `chartData` maps each trajectory point to
normalised 0–100 percentages, defaulting missing `avg_risk` /
`running_cumulative_risk` / `cumulative_risk` to 0 and replacing a zero
range by 1 (the JS `|| 1`). -/

structure ChartPoint where
  date : Nat
  riskPct : ℤ
  cumulativePct : ℤ
  baselinePct : ℤ
  aboveBaseline : Bool
  events : Nat
  high : Nat
deriving DecidableEq, Repr

def jsOrOne (x : ℚ) : ℚ :=
  if x = 0 then 1 else x

def rawRisk (d : TrajPoint) : ℚ :=
  d.avg_risk.getD 0

def rawCumOf (d : TrajPoint) : ℚ :=
  (d.running_cumulative_risk.orElse (fun _ => d.cumulative_risk)).getD 0

def chartData (traj : List TrajPoint) (baselineScore : Option ℚ) :
    List ChartPoint :=
  match traj with
  | [] => []
  | t :: ts =>
    let minVal := (ts.map rawRisk).foldl min (rawRisk t)
    let maxVal := (ts.map rawRisk).foldl max (rawRisk t)
    let range := jsOrOne (maxVal - minVal)
    let minCum := (ts.map rawCumOf).foldl min (rawCumOf t)
    let maxCum := (ts.map rawCumOf).foldl max (rawCumOf t)
    let rangeCum := jsOrOne (maxCum - minCum)
    let rawBaseline := baselineScore.getD 0
    let baselinePct := round ((maxVal - rawBaseline) / range * 100)
    (t :: ts).map (fun d =>
      let riskPct := round ((maxVal - rawRisk d) / range * 100)
      let cumulativePct := round ((rawCumOf d - minCum) / rangeCum * 100)
      { date := d.date
        riskPct := riskPct
        cumulativePct := cumulativePct
        baselinePct := baselinePct
        aboveBaseline := decide (baselinePct < riskPct)
        events := d.events
        high := d.high_risk_events })

/-- A one-day trajectory point used as a concrete chart input. -/
def demoTrajPoint : TrajPoint :=
  { date := 0
    events := 1
    avg_risk := some (-1/4)
    cumulative_risk := none
    running_cumulative_risk := none
    high_risk_events := 0 }

/-- Filling the optional fields of a trajectory point with their JS
defaults (0, with `running_cumulative_risk` falling back to
`cumulative_risk` first). -/
def fillDefaults (d : TrajPoint) : TrajPoint :=
  { d with
    avg_risk := some (rawRisk d)
    running_cumulative_risk := some (rawCumOf d)
    cumulative_risk := some (rawCumOf d) }

/-! ## Helper lemmas -/

lemma confidence_mem_unit (n : Nat) : 0 ≤ confidence n ∧ confidence n ≤ 1 := by
  constructor
  · exact le_min (by positivity) zero_le_one
  · exact min_le_right _ _

lemma escCount_split (users : List DashUser) :
    escalatingUsersCount users =
      (users.filter (fun u => u.baseline_risk_level == "High")).length +
        (users.filter (fun u => u.baseline_risk_level == "Critical")).length := by
  induction users with
  | nil => rfl
  | cons u us ih =>
    simp only [escalatingUsersCount, List.filter_cons] at ih ⊢
    by_cases h1 : u.baseline_risk_level = "High"
    · have h2 : ¬ u.baseline_risk_level = "Critical" := by
        rw [h1]; decide
      simp [h1, h2, ih]
      omega
    · by_cases h2 : u.baseline_risk_level = "Critical"
      · simp [h1, h2, ih]
        omega
      · simp [h1, h2, ih]

lemma escCount_map_indep (users : List DashUser) (f : DashUser → Bool) :
    escalatingUsersCount
        (users.map (fun u => { u with is_escalating := f u })) =
      escalatingUsersCount users := by
  induction users with
  | nil => rfl
  | cons u us ih =>
    simp only [escalatingUsersCount, List.map_cons, List.filter_cons] at ih ⊢
    by_cases h : (u.baseline_risk_level == "High" ||
        u.baseline_risk_level == "Critical") = true
    · simp [h, ih]
    · simp [h, ih]

lemma matchSteps_cons_hit {e : SEvent} {rest : List SEvent}
    {req : List Tag} {reqs : List (List Tag)} {d : ℚ}
    (htime : e.time ≤ d) (hhit : tagHit e.tags req = true) :
    matchSteps (e :: rest) (req :: reqs) d =
      (matchSteps rest reqs d).map (fun l => e :: l) := by
  simp [matchSteps, htime, hhit]

lemma matchSteps_props :
    ∀ (l : List SEvent) (steps : List (List Tag)) (d : ℚ)
      (evs : List SEvent), matchSteps l steps d = some evs →
      evs.Sublist l ∧ (∀ x ∈ evs, x.time ≤ d) ∧
        evs.length = steps.length := by
  intro l
  induction l with
  | nil =>
    intro steps d evs h
    cases steps with
    | nil =>
      simp only [matchSteps, Option.some.injEq] at h
      subst h
      exact ⟨List.Sublist.refl _, by simp, rfl⟩
    | cons req reqs => simp [matchSteps] at h
  | cons e rest ih =>
    intro steps d evs h
    cases steps with
    | nil =>
      simp only [matchSteps, Option.some.injEq] at h
      subst h
      exact ⟨List.nil_sublist _, by simp, rfl⟩
    | cons req reqs =>
      by_cases htime : e.time ≤ d
      · by_cases hhit : tagHit e.tags req = true
        · rw [matchSteps_cons_hit htime hhit] at h
          obtain ⟨evs', hx, hfa⟩ := Option.map_eq_some'.mp h
          subst hfa
          obtain ⟨hsub, htimes, hlen⟩ := ih reqs d evs' hx
          refine ⟨hsub.cons₂ e, ?_, by simp [hlen]⟩
          intro x hx'
          rcases List.mem_cons.mp hx' with rfl | hx''
          · exact htime
          · exact htimes x hx''
        · rw [show matchSteps (e :: rest) (req :: reqs) d =
              matchSteps rest (req :: reqs) d from by
            simp [matchSteps, htime, hhit]] at h
          obtain ⟨hsub, htimes, hlen⟩ := ih (req :: reqs) d evs h
          exact ⟨hsub.cons e, htimes, hlen⟩
      · rw [show matchSteps (e :: rest) (req :: reqs) d = none from by
          simp [matchSteps, htime]] at h
        exact absurd h (by simp)

lemma tryAnchor_eq_some {p : ChainPattern} {e : SEvent}
    {rest : List SEvent} {m : ChainMatch}
    (h : tryAnchor p e rest = some m) :
    ∃ req₀ reqs evs, p.sequence = req₀ :: reqs ∧
      tagHit e.tags req₀ = true ∧
      matchSteps (e :: rest) p.sequence (e.time + p.window) = some evs ∧
      p.minEvents ≤ evs.length ∧ m = mkMatch p evs := by
  unfold tryAnchor at h
  rcases hseq : p.sequence with _ | ⟨req₀, reqs⟩
  · rw [hseq] at h
    exact absurd h (by simp)
  · rw [hseq] at h
    dsimp only at h
    by_cases hhit : tagHit e.tags req₀ = true
    · rw [if_pos hhit] at h
      rcases hms : matchSteps (e :: rest) (req₀ :: reqs)
          (e.time + p.window) with _ | evs
      · rw [hms] at h
        exact absurd h (by simp)
      · rw [hms] at h
        dsimp only at h
        by_cases hmin : p.minEvents ≤ evs.length
        · rw [if_pos hmin] at h
          refine ⟨req₀, reqs, evs, rfl, hhit, rfl, hmin, ?_⟩
          injection h with h'
          exact h'.symm
        · rw [if_neg hmin] at h
          exact absurd h (by simp)
    · rw [if_neg hhit] at h
      exact absurd h (by simp)

lemma detectChains_risk (p : ChainPattern) :
    ∀ (evs : List SEvent), ∀ m ∈ detectChains p evs,
      m.chainRisk = sumScores m.events * p.amplification := by
  intro evs
  induction evs with
  | nil => intro m hm; simp [detectChains] at hm
  | cons e rest ih =>
    intro m hm
    rw [detectChains] at hm
    rcases ha : tryAnchor p e rest with _ | m₀
    · rw [ha] at hm
      exact ih m hm
    · rw [ha] at hm
      rcases List.mem_cons.mp hm with rfl | hm'
      · obtain ⟨_, _, mevs, _, _, _, _, rfl⟩ := tryAnchor_eq_some ha
        rfl
      · exact ih m hm'

lemma detectChains_inv (p : ChainPattern) (hw : 0 ≤ p.window) :
    ∀ evs : List SEvent, evs.Pairwise (fun a b => a.time < b.time) →
      ∀ m ∈ detectChains p evs,
        m.events ≠ [] ∧
          m.events.Pairwise (fun a b => a.time < b.time) ∧
          m.duration ≤ p.window := by
  intro evs
  induction evs with
  | nil => intro _ m hm; simp [detectChains] at hm
  | cons e rest ih =>
    intro hp m hm
    have hp' : rest.Pairwise (fun a b => a.time < b.time) := hp.of_cons
    rw [detectChains] at hm
    rcases ha : tryAnchor p e rest with _ | m₀
    · rw [ha] at hm
      exact ih hp' m hm
    · rw [ha] at hm
      rcases List.mem_cons.mp hm with rfl | hm'
      · obtain ⟨req₀, reqs, mevs, hseq, hhit, hms, hlen, rfl⟩ :=
          tryAnchor_eq_some ha
        obtain ⟨hsub, htimes, hlensteps⟩ := matchSteps_props _ _ _ _ hms
        have htime : e.time ≤ e.time + p.window := by linarith
        rw [hseq, matchSteps_cons_hit htime hhit] at hms
        obtain ⟨evs'', hx, hfa⟩ := Option.map_eq_some'.mp hms
        have hne : mevs ≠ [] := by
          intro hnil
          rw [hnil] at hfa
          exact List.cons_ne_nil _ _ hfa
        refine ⟨by simpa [mkMatch] using hne, hp.sublist hsub, ?_⟩
        subst hfa
        have hlast : (e :: evs'').getLast? =
            some ((e :: evs'').getLast (List.cons_ne_nil _ _)) :=
          List.getLast?_eq_getLast_of_ne_nil _
        have hlastmem : (e :: evs'').getLast (List.cons_ne_nil _ _) ∈
            e :: evs'' := List.getLast_mem _
        have hlastle := htimes _ hlastmem
        simp only [mkMatch, hlast, Option.map_some', Option.getD_some,
          List.head?_cons]
        linarith
      · exact ih hp' m hm'

lemma detectChains_demo :
    detectChains dataExfilPattern demoEvents =
      [mkMatch dataExfilPattern demoEvents] := by
  norm_num [detectChains, tryAnchor, matchSteps, tagHit, demoEvents,
    dataExfilPattern]

lemma demoEvents_sorted :
    demoEvents.Pairwise (fun a b => a.time < b.time) := by
  norm_num [demoEvents, List.pairwise_cons]

lemma percentChange_demo : percentChange (-13/20) (-1/4) = -160 := by
  unfold percentChange
  rw [if_neg (by norm_num), abs_of_neg (by norm_num)]
  norm_num

lemma isEscalating_demo : isEscalating (-13/20) (-1/4) = true := by
  unfold isEscalating
  rw [if_neg (by norm_num)]
  rw [decide_eq_true_eq, percentChange_demo]
  norm_num [escalationPctThreshold, escalationAbsThreshold]

lemma foldl_min_le_init (l : List ℚ) (a : ℚ) : l.foldl min a ≤ a := by
  induction l generalizing a with
  | nil => exact le_refl a
  | cons b t ih => exact le_trans (ih (min a b)) (min_le_left a b)

lemma foldl_min_le_mem {x : ℚ} :
    ∀ {l : List ℚ}, x ∈ l → ∀ a : ℚ, l.foldl min a ≤ x := by
  intro l
  induction l with
  | nil => intro h; cases h
  | cons b t ih =>
    intro h a
    rcases List.mem_cons.mp h with rfl | hx
    · exact le_trans (foldl_min_le_init t (min a x)) (min_le_right a x)
    · exact ih hx (min a b)

lemma init_le_foldl_max (l : List ℚ) (a : ℚ) : a ≤ l.foldl max a := by
  induction l generalizing a with
  | nil => exact le_refl a
  | cons b t ih => exact le_trans (le_max_left a b) (ih (max a b))

lemma mem_le_foldl_max {x : ℚ} :
    ∀ {l : List ℚ}, x ∈ l → ∀ a : ℚ, x ≤ l.foldl max a := by
  intro l
  induction l with
  | nil => intro h; cases h
  | cons b t ih =>
    intro h a
    rcases List.mem_cons.mp h with rfl | hx
    · exact le_trans (le_max_right a x) (init_le_foldl_max t (max a x))
    · exact ih hx (max a b)

lemma round_bounds {x : ℚ} (h0 : 0 ≤ x) (h1 : x ≤ 100) :
    0 ≤ round x ∧ round x ≤ 100 := by
  rw [round_eq]
  constructor
  · exact Int.le_floor.mpr (by push_cast; linarith)
  · have h : (⌊x + 1/2⌋ : ℤ) < 101 := by
      apply Int.floor_lt.mpr
      push_cast
      linarith
    omega

lemma normPctHigh_bounds {m M s : ℚ} (hms : m ≤ s) (hsM : s ≤ M) :
    0 ≤ round ((M - s) / jsOrOne (M - m) * 100) ∧
      round ((M - s) / jsOrOne (M - m) * 100) ≤ 100 := by
  by_cases h : M - m = 0
  · have hs : s = M := le_antisymm hsM (by linarith)
    rw [jsOrOne, if_pos h, hs]
    norm_num
  · have hlt : 0 < M - m := lt_of_le_of_ne (by linarith) (Ne.symm h)
    rw [jsOrOne, if_neg h]
    apply round_bounds
    · have := div_nonneg (show (0:ℚ) ≤ M - s by linarith) hlt.le
      linarith
    · have hq : (M - s) / (M - m) ≤ 1 :=
        div_le_one_of_le₀ (by linarith) hlt.le
      nlinarith [div_nonneg (show (0:ℚ) ≤ M - s by linarith) hlt.le]

lemma normPctLow_bounds {m M s : ℚ} (hms : m ≤ s) (hsM : s ≤ M) :
    0 ≤ round ((s - m) / jsOrOne (M - m) * 100) ∧
      round ((s - m) / jsOrOne (M - m) * 100) ≤ 100 := by
  by_cases h : M - m = 0
  · have hs : s = m := le_antisymm (by linarith) hms
    rw [jsOrOne, if_pos h, hs]
    norm_num
  · have hlt : 0 < M - m := lt_of_le_of_ne (by linarith) (Ne.symm h)
    rw [jsOrOne, if_neg h]
    apply round_bounds
    · have := div_nonneg (show (0:ℚ) ≤ s - m by linarith) hlt.le
      linarith
    · have hq : (s - m) / (M - m) ≤ 1 :=
        div_le_one_of_le₀ (by linarith) hlt.le
      nlinarith [div_nonneg (show (0:ℚ) ≤ s - m by linarith) hlt.le]

lemma weight30_pow7 : (weight 30 7) ^ (7 : ℕ) = (1/2 : ℝ) ^ (30 : ℕ) := by
  rw [weight]
  rw [← Real.rpow_natCast ((1/2 : ℝ) ^ ((30 : ℝ)/7)) 7]
  rw [← Real.rpow_mul (by norm_num : (0:ℝ) ≤ 1/2)]
  rw [show (30 : ℝ) / 7 * ((7:ℕ):ℝ) = ((30 : ℕ) : ℝ) by norm_num]
  rw [Real.rpow_natCast]

lemma weight30_pos : 0 < weight 30 7 :=
  Real.rpow_pos_of_pos (by norm_num) _

lemma weight30_lt : weight 30 7 < 513/10000 := by
  apply lt_of_pow_lt_pow_left₀ 7 (by norm_num : (0:ℝ) ≤ 513/10000)
  rw [weight30_pow7]
  norm_num

lemma weight30_gt : 512/10000 < weight 30 7 := by
  apply lt_of_pow_lt_pow_left₀ 7 weight30_pos.le
  rw [weight30_pow7]
  norm_num

/-! ## Claim theorems -/

/-- C1: the decay weight is 0.5^(daysAgo/halfLife): it is 1 at day 0,
exactly 0.5 at the half-life, 0.25 at twice the half-life, strictly
decreasing in daysAgo, and at half-life 7 the 30-day weight is within
0.001 of 0.0505 — more than 0.02 away from the ~3% documentation
figure. -/
theorem weight_spec :
    (∀ h : ℝ, 0 < h →
      weight 0 h = 1 ∧ weight h h = 1/2 ∧ weight (2*h) h = 1/4 ∧
        ∀ d₁ d₂ : ℝ, 0 ≤ d₁ → d₁ < d₂ →
          weight d₂ h < weight d₁ h) ∧
    |weight 30 7 - 0.0505| < 1/1000 ∧ 1/50 < |weight 30 7 - 0.03| := by
  refine ⟨?_, ?_, ?_⟩
  · intro h hh
    have hne : h ≠ 0 := ne_of_gt hh
    refine ⟨?_, ?_, ?_, ?_⟩
    · rw [weight, zero_div, Real.rpow_zero]
    · rw [weight, div_self hne, Real.rpow_one]
    · rw [weight, mul_div_assoc, div_self hne, mul_one]
      rw [show (2 : ℝ) = ((2 : ℕ) : ℝ) by norm_num, Real.rpow_natCast]
      norm_num
    · intro d₁ d₂ _ hd
      rw [weight, weight]
      exact Real.rpow_lt_rpow_of_exponent_gt (by norm_num) (by norm_num)
        ((div_lt_div_iff_of_pos_right hh).mpr hd)
  · rw [abs_lt]
    constructor
    · have := weight30_gt
      linarith
    · have := weight30_lt
      linarith
  · rw [abs_of_pos (by have := weight30_gt; linarith)]
    have := weight30_gt
    linarith

/-- Witness for C1 at half-life 7 and days 0 < 7. -/
theorem weight_spec_witness :
    (0:ℝ) < 7 ∧ weight 7 7 = 1/2 ∧ (0:ℝ) ≤ 0 ∧ (0:ℝ) < 7 ∧
      weight 7 7 < weight 0 7 :=
  ⟨by norm_num, (weight_spec.1 7 (by norm_num)).2.1, le_rfl, by norm_num,
    (weight_spec.1 7 (by norm_num)).2.2.2 0 7 le_rfl (by norm_num)⟩

/-- C2: every reported chain risk equals the sum of the matched events'
individual scores times the pattern's amplification factor, and on the
ordered off-hours → mass-file-access → large-upload sequence inside an
8-hour window the Data-Exfiltration template matches with
chainRisk = 2.0 × (−0.3 − 0.5 − 0.8) exactly. -/
theorem chainRisk_spec :
    (∀ (p : ChainPattern) (evs : List SEvent), ∀ m ∈ detectChains p evs,
      m.chainRisk = sumScores m.events * p.amplification) ∧
    (detectChains dataExfilPattern demoEvents).map ChainMatch.chainRisk =
      [((-3/10 : ℚ) + (-1/2) + (-4/5)) * 2] := by
  constructor
  · exact fun p evs m hm => detectChains_risk p evs m hm
  · rw [detectChains_demo]
    norm_num [mkMatch, sumScores, demoEvents, dataExfilPattern]

/-- Witness for C2 at the Data-Exfiltration demo chain. -/
theorem chainRisk_spec_witness :
    mkMatch dataExfilPattern demoEvents ∈
        detectChains dataExfilPattern demoEvents ∧
      (mkMatch dataExfilPattern demoEvents).chainRisk =
        sumScores (mkMatch dataExfilPattern demoEvents).events *
          dataExfilPattern.amplification :=
  ⟨by rw [detectChains_demo]; exact List.mem_singleton_self _,
    chainRisk_spec.1 dataExfilPattern demoEvents _
      (by rw [detectChains_demo]; exact List.mem_singleton_self _)⟩

/-- C6: on a strictly time-ordered event stream with a non-negative
window, every produced chain match has a non-empty, strictly time-ordered
event list whose span does not exceed the pattern window; and the same
three Data-Exfiltration-tagged events spread across 30 hours produce no
match for the 8-hour template. -/
theorem chain_invariants_spec :
    (∀ p : ChainPattern, 0 ≤ p.window →
      ∀ evs : List SEvent, evs.Pairwise (fun a b => a.time < b.time) →
        ∀ m ∈ detectChains p evs,
          m.events ≠ [] ∧
            m.events.Pairwise (fun a b => a.time < b.time) ∧
            m.duration ≤ p.window) ∧
    detectChains dataExfilPattern spreadEvents = [] := by
  constructor
  · exact fun p hw evs hp m hm => detectChains_inv p hw evs hp m hm
  · norm_num [detectChains, tryAnchor, matchSteps, tagHit, spreadEvents,
      dataExfilPattern]

/-- Witness for C6 at the Data-Exfiltration demo chain. -/
theorem chain_invariants_spec_witness :
    (0 ≤ dataExfilPattern.window ∧
      demoEvents.Pairwise (fun a b => a.time < b.time) ∧
      mkMatch dataExfilPattern demoEvents ∈
        detectChains dataExfilPattern demoEvents) ∧
      (mkMatch dataExfilPattern demoEvents).events ≠ [] ∧
      (mkMatch dataExfilPattern demoEvents).events.Pairwise
        (fun a b => a.time < b.time) ∧
      (mkMatch dataExfilPattern demoEvents).duration ≤
        dataExfilPattern.window :=
  ⟨⟨by norm_num [dataExfilPattern], demoEvents_sorted,
      by rw [detectChains_demo]; exact List.mem_singleton_self _⟩,
    chain_invariants_spec.1 dataExfilPattern
      (by norm_num [dataExfilPattern]) demoEvents demoEvents_sorted _
      (by rw [detectChains_demo]; exact List.mem_singleton_self _)⟩

/-- C10: the UserProfile chart normalisation is total — missing values
default to 0 (filling them in changes nothing), a non-empty trajectory
yields a non-empty chart, and every riskPct and cumulativePct lies in
[0, 100]. -/
theorem chartData_spec :
    (∀ (traj : List TrajPoint) (bs : Option ℚ),
      chartData (traj.map fillDefaults) bs = chartData traj bs) ∧
    (∀ (traj : List TrajPoint) (bs : Option ℚ), traj ≠ [] →
      chartData traj bs ≠ []) ∧
    (∀ (traj : List TrajPoint) (bs : Option ℚ),
      ∀ c ∈ chartData traj bs,
        0 ≤ c.riskPct ∧ c.riskPct ≤ 100 ∧
          0 ≤ c.cumulativePct ∧ c.cumulativePct ≤ 100) := by
  refine ⟨?_, ?_, ?_⟩
  · intro traj bs
    cases traj with
    | nil => rfl
    | cons t ts =>
      have h1 : rawRisk ∘ fillDefaults = rawRisk := funext fun d => rfl
      have h2 : rawCumOf ∘ fillDefaults = rawCumOf := funext fun d => rfl
      simp only [List.map_cons, chartData, List.map_map, h1, h2]
      rfl
  · intro traj bs hne
    cases traj with
    | nil => exact absurd rfl hne
    | cons t ts => simp [chartData]
  · intro traj bs c hc
    cases traj with
    | nil => simp [chartData] at hc
    | cons t ts =>
      simp only [chartData] at hc
      obtain ⟨d, hd, rfl⟩ := List.mem_map.mp hc
      have hmemR : rawRisk d = rawRisk t ∨ rawRisk d ∈ ts.map rawRisk := by
        rcases List.mem_cons.mp hd with rfl | hd'
        · exact Or.inl rfl
        · exact Or.inr (List.mem_map_of_mem rawRisk hd')
      have hloR : (ts.map rawRisk).foldl min (rawRisk t) ≤ rawRisk d := by
        rcases hmemR with h | h
        · rw [h]; exact foldl_min_le_init _ _
        · exact foldl_min_le_mem h _
      have hhiR : rawRisk d ≤ (ts.map rawRisk).foldl max (rawRisk t) := by
        rcases hmemR with h | h
        · rw [h]; exact init_le_foldl_max _ _
        · exact mem_le_foldl_max h _
      have hmemC : rawCumOf d = rawCumOf t ∨
          rawCumOf d ∈ ts.map rawCumOf := by
        rcases List.mem_cons.mp hd with rfl | hd'
        · exact Or.inl rfl
        · exact Or.inr (List.mem_map_of_mem rawCumOf hd')
      have hloC : (ts.map rawCumOf).foldl min (rawCumOf t) ≤
          rawCumOf d := by
        rcases hmemC with h | h
        · rw [h]; exact foldl_min_le_init _ _
        · exact foldl_min_le_mem h _
      have hhiC : rawCumOf d ≤
          (ts.map rawCumOf).foldl max (rawCumOf t) := by
        rcases hmemC with h | h
        · rw [h]; exact init_le_foldl_max _ _
        · exact mem_le_foldl_max h _
      exact ⟨(normPctHigh_bounds hloR hhiR).1,
        (normPctHigh_bounds hloR hhiR).2,
        (normPctLow_bounds hloC hhiC).1,
        (normPctLow_bounds hloC hhiC).2⟩

/-- Witness for C10 on a one-point trajectory. -/
theorem chartData_spec_witness :
    [demoTrajPoint] ≠ ([] : List TrajPoint) ∧
      chartData [demoTrajPoint] none ≠ [] :=
  ⟨by simp, chartData_spec.2.1 [demoTrajPoint] none (by simp)⟩

/-- C3: `isEscalating` is true exactly when the percent change shows a
≥30% worsening and the recent mean is below the −0.3 elevated-risk
threshold; for recent mean −0.65 and previous mean −0.25 the percent
change is −160, the flag is set, and the severity is at least High. -/
theorem escalation_spec :
    (∀ r p : ℚ, p ≠ 0 →
      (isEscalating r p = true ↔
        (percentChange r p ≤ -30 ∧ r < -3/10))) ∧
    percentChange (-13/20) (-1/4) = -160 ∧
    isEscalating (-13/20) (-1/4) = true ∧
    Severity.High.rank ≤ (escalationSeverity (-13/20) (-1/4)).rank := by
  refine ⟨?_, percentChange_demo, isEscalating_demo, ?_⟩
  · intro r p hp
    simp [isEscalating, hp, escalationPctThreshold, escalationAbsThreshold]
  · unfold escalationSeverity
    rw [isEscalating_demo, if_pos rfl, percentChange_demo]
    norm_num [Severity.rank]

/-- Witness for C3 at recent mean −0.65, previous mean −0.25. -/
theorem escalation_spec_witness :
    ((-1/4 : ℚ) ≠ 0) ∧
      (isEscalating (-13/20) (-1/4) = true ↔
        (percentChange (-13/20) (-1/4) ≤ -30 ∧ (-13/20 : ℚ) < -3/10)) :=
  ⟨by norm_num, escalation_spec.1 (-13/20) (-1/4) (by norm_num)⟩

/-- C4: `computeBaseline` depends only on the events above the normality
threshold, and with fewer than the minimum count of normal events it
returns the low-confidence global-default baseline instead of failing. -/
theorem computeBaseline_spec :
    (∀ uid history, computeBaseline uid history =
      computeBaseline uid (history.filter isNormal)) ∧
    (∀ uid history,
      (history.filter isNormal).length < minBaselineEvents →
        computeBaseline uid history = defaultBaseline uid ∧
          (computeBaseline uid history).tier = ConfTier.low) := by
  constructor
  · intro uid history
    simp [computeBaseline, List.filter_filter]
  · intro uid history h
    refine ⟨by simp [computeBaseline, if_pos h], ?_⟩
    simp [computeBaseline, if_pos h, defaultBaseline]

/-- Witness for C4 on an empty history. -/
theorem computeBaseline_spec_witness :
    (([] : List SEvent).filter isNormal).length < minBaselineEvents ∧
      computeBaseline 0 [] = defaultBaseline 0 ∧
        (computeBaseline 0 []).tier = ConfTier.low :=
  ⟨by decide, (computeBaseline_spec.2 0 [] (by decide)).1,
    (computeBaseline_spec.2 0 [] (by decide)).2⟩

/-- C5: every baseline confidence lies in [0,1], the continuous
confidence is monotone non-decreasing in the normal-event count, and the
tier is low below 10 events, medium from 10 to 89, and high from 90. -/
theorem confidence_spec :
    (∀ uid history, 0 ≤ (computeBaseline uid history).conf ∧
      (computeBaseline uid history).conf ≤ 1) ∧
    (∀ m n : Nat, m ≤ n → confidence m ≤ confidence n) ∧
    (∀ n : Nat, (confTier n = ConfTier.low ↔ n < 10) ∧
      (confTier n = ConfTier.medium ↔ 10 ≤ n ∧ n < 90) ∧
      (confTier n = ConfTier.high ↔ 90 ≤ n)) := by
  refine ⟨?_, ?_, ?_⟩
  · intro uid history
    by_cases h : (history.filter isNormal).length < minBaselineEvents
    · simpa [computeBaseline, if_pos h, defaultBaseline] using
        confidence_mem_unit 0
    · simpa [computeBaseline, if_neg h] using
        confidence_mem_unit (history.filter isNormal).length
  · intro m n hmn
    unfold confidence
    have h : (m : ℚ) ≤ n := by exact_mod_cast hmn
    gcongr
  · intro n
    refine ⟨?_, ?_, ?_⟩ <;>
      by_cases h1 : n < 10 <;> by_cases h2 : n < 90 <;>
        simp [confTier, h1, h2] <;> omega

/-- Witness for C5 monotonicity at counts 3 ≤ 5. -/
theorem confidence_spec_witness :
    (3 : Nat) ≤ 5 ∧ confidence 3 ≤ confidence 5 :=
  ⟨by decide, confidence_spec.2.1 3 5 (by decide)⟩

/-- C7: the per-feature z-score is 0 whenever the standard deviation is
0, the combined divergence score is non-negative, and for baseline mean
9.4 with std 5.2 and value 100 the z-score is ≈17.4, the classification
is High, and the reported deviation multiple is ≈10.6. -/
theorem divergence_spec :
    (∀ fs : FeatureStats, ∀ v : ℚ, fs.std = 0 → zScore fs v = 0) ∧
    (∀ pairs : List (FeatureStats × ℚ),
      (∀ p ∈ pairs, 0 ≤ p.1.std) → 0 ≤ divergenceScore pairs) ∧
    (|zScore ⟨47/5, 26/5⟩ 100 - 87/5| < 1/20 ∧
      classifyDivergence (zScore ⟨47/5, 26/5⟩ 100) = DivLevel.High ∧
      |deviationMultiple ⟨47/5, 26/5⟩ 100 - 53/5| < 1/20) := by
  refine ⟨?_, ?_, ?_, ?_, ?_⟩
  · intro fs v h
    simp [zScore, h]
  · intro pairs h
    apply List.sum_nonneg
    intro x hx
    obtain ⟨p, hp, rfl⟩ := List.mem_map.mp hx
    by_cases hstd : p.1.std = 0
    · simp [zScore, hstd]
    · have hnn : 0 ≤ p.1.std := h p hp
      simp only [zScore, if_neg hstd]
      exact div_nonneg (abs_nonneg _) hnn
  · rw [show zScore ⟨47/5, 26/5⟩ 100 = 453/26 by
      norm_num [zScore, abs_of_nonneg]]
    rw [show |(453/26 : ℚ) - 87/5| = 3/130 by norm_num [abs_of_nonneg]]
    norm_num
  · rw [show zScore ⟨47/5, 26/5⟩ 100 = 453/26 by
      norm_num [zScore, abs_of_nonneg]]
    norm_num [classifyDivergence]
  · rw [show deviationMultiple ⟨47/5, 26/5⟩ 100 = 500/47 by
      norm_num [deviationMultiple]]
    rw [show |(500/47 : ℚ) - 53/5| = 9/235 by norm_num [abs_of_nonneg]]
    norm_num

/-- Witness for C7 on a singleton feature list with non-negative std. -/
theorem divergence_spec_witness :
    (∀ p ∈ [((⟨47/5, 26/5⟩ : FeatureStats), (100 : ℚ))], 0 ≤ p.1.std) ∧
      0 ≤ divergenceScore [((⟨47/5, 26/5⟩ : FeatureStats), (100 : ℚ))] :=
  ⟨by intro p hp; simp at hp; subst hp; norm_num,
    divergence_spec.2.1 _ (by intro p hp; simp at hp; subst hp; norm_num)⟩

/-- C8: every per-identity query and the aggregate statistics query are
read-only: they return the manager state unchanged, and repeating the
same query without an intervening reload returns an identical result. -/
theorem queries_readonly_spec :
    ∀ s uid,
      (getBaselineQ s uid).2 = s ∧ (getTrajectoryQ s uid).2 = s ∧
      (getEscalationQ s uid).2 = s ∧ (getChainsQ s uid).2 = s ∧
      (getPatternsQ s uid).2 = s ∧ (getStatisticsQ s).2 = s ∧
      (getBaselineQ (getBaselineQ s uid).2 uid).1 =
        (getBaselineQ s uid).1 ∧
      (getTrajectoryQ (getTrajectoryQ s uid).2 uid).1 =
        (getTrajectoryQ s uid).1 ∧
      (getEscalationQ (getEscalationQ s uid).2 uid).1 =
        (getEscalationQ s uid).1 ∧
      (getChainsQ (getChainsQ s uid).2 uid).1 = (getChainsQ s uid).1 ∧
      (getPatternsQ (getPatternsQ s uid).2 uid).1 =
        (getPatternsQ s uid).1 ∧
      (getStatisticsQ (getStatisticsQ s).2).1 = (getStatisticsQ s).1 :=
  fun _ _ =>
    ⟨rfl, rfl, rfl, rfl, rfl, rfl, rfl, rfl, rfl, rfl, rfl, rfl⟩

/-- C9: the Dashboard Escalating-Users statistic counts exactly the users
whose baseline risk level is High or Critical, and is independent of any
per-user escalation flag coming from the trajectory engine. -/
theorem dashboard_escalating_spec :
    ∀ (users : List DashUser) (f : DashUser → Bool),
      escalatingUsersCount users =
        (users.filter (fun u => u.baseline_risk_level == "High")).length +
          (users.filter
            (fun u => u.baseline_risk_level == "Critical")).length ∧
      escalatingUsersCount
          (users.map (fun u => { u with is_escalating := f u })) =
        escalatingUsersCount users :=
  fun users f => ⟨escCount_split users, escCount_map_indep users f⟩

end VORTEX
